import Mathlib

/-!
Verification of the ProWaveDAQ acquisition-and-distribution pipeline.

This file gives a shallow embedding of the core data path of the repository:

* `src/prowavedaq.py` — the acquisition driver (`ProWaveDAQ`): raw-to-physical
  sample conversion, Normal/Bulk poll mode selection, the read loop's response
  handling and consecutive-failure escalation, and the drop-oldest-on-full
  hand-off queue.
* `src/csv_writer.py` — the chunked record writer (`CSVWriter`): per-row
  timestamp computation from a global sample index, and file rotation.
* `src/main.py` — the consumer loop (`collection_loop`): the CSV rotation
  splitting logic, the SQL temp-file staging path (`_write_to_temp_file`,
  `_upload_temp_file_if_needed`), and the stop flow (`stop_collection`,
  `finalize_upload`).
* `src/sql_uploader.py` — table-name sanitisation and SQL statement
  construction (`SQLUploader._sanitize_table_name`, `create_table`,
  `upload_from_csv_file`).

Python floats are modelled as exact rationals (ℚ); `datetime` instants are
modelled as rational numbers of seconds.  Nondeterministic external outcomes
(transport results, SQL upload success) are supplied as explicit inputs.
-/

set_option maxHeartbeats 1000000

/-- One output row: (timestamp, channel values). -/
abbrev Row := ℚ × List ℚ

/-! ## Sample codec — `ProWaveDAQ._convert_raw_to_float_samples`

`src/prowavedaq.py` lines 411-446.  `CHANNEL_COUNT = 3`. -/

/-- Number of data channels, `ProWaveDAQ.CHANNEL_COUNT`. -/
def CHANNEL_COUNT : Nat := 3

/-- Conversion of one raw 16-bit register word to a physical value:
`signed = w if w < 32768 else w - 65536`, then `signed / 8192.0`. -/
def toPhysical (w : Nat) : ℚ :=
  ((if w < 32768 then (w : ℤ) else (w : ℤ) - 65536 : ℤ) : ℚ) / 8192

/-- `ProWaveDAQ._convert_raw_to_float_samples`: keeps only the words forming
complete XYZ triples (`(len // 3) * 3`) and converts each to a physical
value; an empty result when fewer than one full triple is supplied. -/
def convert_raw_to_float_samples (raw_block : List Nat) : List ℚ :=
  if raw_block = [] then []
  else
    let sample_word_count := (raw_block.length / CHANNEL_COUNT) * CHANNEL_COUNT
    if sample_word_count = 0 then []
    else (raw_block.take sample_word_count).map toPhysical

/-! ## Poll mode selection — `ProWaveDAQ._read_loop` / `_read_normal_data` /
`_read_bulk_data`

`src/prowavedaq.py` lines 49-52 (constants), 369-391 (the two read helpers)
and 477-482 (mode choice in the read loop). -/

/-- `ProWaveDAQ.BULK_TRIGGER_SIZE`. -/
def BULK_TRIGGER_SIZE : Nat := 123

/-- `ProWaveDAQ.MAX_BULK_SIZE`. -/
def MAX_BULK_SIZE : Nat := 9

/-- `ProWaveDAQ.REG_FIFO_LEN`: the Normal-mode data address. -/
def REG_FIFO_LEN : Nat := 0x02

/-- `ProWaveDAQ.BULK_MODE_ADDRESS`: the Bulk-mode data address. -/
def BULK_MODE_ADDRESS : Nat := 0x15

/-- The two register-read strategies of the driver. -/
inductive ReadMode
  | normal
  | bulk
deriving DecidableEq

/-- One register-read request: mode, base address, register count
(the count includes the one-word header, `count + 1` in
`_read_registers_with_header`). -/
structure ReadRequest where
  mode : ReadMode
  address : Nat
  registerCount : Nat
deriving DecidableEq

/-- The read request issued by one iteration of `_read_loop` for a given
`buffer_count`: Normal mode (`_read_normal_data`) when
`buffer_count <= BULK_TRIGGER_SIZE`, otherwise Bulk mode
(`_read_bulk_data`). -/
def pollRequest (buffer_count : Nat) : ReadRequest :=
  if buffer_count ≤ BULK_TRIGGER_SIZE then
    ⟨ReadMode.normal, REG_FIFO_LEN, min buffer_count BULK_TRIGGER_SIZE + 1⟩
  else
    ⟨ReadMode.bulk, BULK_MODE_ADDRESS, min buffer_count MAX_BULK_SIZE + 1⟩

/-! ## The hand-off queue — `ProWaveDAQ._read_loop` enqueue

`src/prowavedaq.py` line 69 (`queue.Queue(maxsize=10000)`) and lines 491-498:
`put_nowait`, and on `queue.Full` a `get_nowait` (dropping the oldest
queued batch) followed by `put_nowait` of the new batch. -/

/-- Capacity of `ProWaveDAQ.data_queue`. -/
def DATA_QUEUE_MAXSIZE : Nat := 10000

/-- The enqueue policy of `_read_loop`: append when there is room, otherwise
drop the oldest queued element and append the new one. -/
def putNowaitDropOldest (maxsize : Nat) (q : List α) (x : α) : List α :=
  if q.length < maxsize then q ++ [x] else q.drop 1 ++ [x]

/-! ## Chunked record writer — `CSVWriter`

`src/csv_writer.py`.  The writer state keeps the sealed files (in creation
order), the rows of the currently open file, the global sample index
(`global_sample_count`, never reset by rotation) and the start time.  Rows
carry exact-rational timestamps `global_start_time + count / sample_rate`. -/

/-- Pad a row's channel values to `ch` entries with `0.0`, as the
`row.append(0.0)` branch of `CSVWriter.add_data_block` does. -/
def padChunk (ch : Nat) (l : List ℚ) : List ℚ :=
  l ++ List.replicate (ch - l.length) 0

/-- Recursion core for `chunks`: the fuel only bounds the iteration count
(structural recursion so that concrete runs reduce); with `ch ≥ 1` every
step consumes at least one element, so fuel `data.length` is never
exhausted before the data is. -/
def chunksAux (ch : Nat) : Nat → List ℚ → List (List ℚ)
  | 0, _ => []
  | _, [] => []
  | fuel + 1, data => padChunk ch (data.take ch) :: chunksAux ch fuel (data.drop ch)

/-- Split a flat data list into channel groups of `ch` values (the
`for i in range(0, len(data), self.channels)` loop), padding the last
group with zeros.  For `ch = 0` Python would raise; we return no groups. -/
def chunks (ch : Nat) (data : List ℚ) : List (List ℚ) :=
  if ch = 0 then [] else chunksAux ch data.length data

/-- Turn channel groups into rows, giving the group at offset `i` the
timestamp `origin + (count + i) * (1 / rate)` (the
`elapsed_time = global_sample_count * sample_interval` computation). -/
def writeChunks (origin rate : ℚ) : Nat → List (List ℚ) → List Row
  | _, [] => []
  | count, chunk :: rest =>
      (origin + (count : ℚ) * (1 / rate), chunk) :: writeChunks origin rate (count + 1) rest

/-- State of `CSVWriter` (fields of `csv_writer.py` lines 55-64 that carry
data): sealed files are the rotated-out row lists, `currentRows` the rows of
the open file. -/
structure CSVWriter where
  channels : Nat
  sampleRate : Nat
  fileCounter : Nat
  globalStartTime : ℚ
  globalSampleCount : Nat
  files : List (List Row)
  currentRows : List Row
deriving DecidableEq

/-- `CSVWriter.__init__`: counters start at `file_counter = 1`,
`global_sample_count = 0`, no rows written. -/
def mkCSVWriter (channels sampleRate : Nat) (origin : ℚ) : CSVWriter :=
  ⟨channels, sampleRate, 1, origin, 0, [], []⟩

/-- `CSVWriter.add_data_block` (`src/csv_writer.py` lines 128-171): no-op on
empty data; otherwise appends one row per channel group, each timestamped
from the global sample count, then advances the global sample count. -/
def CSVWriter.add_data_block (w : CSVWriter) (data : List ℚ) : CSVWriter :=
  if data = [] then w
  else
    let cs := chunks w.channels data
    { w with
      currentRows := w.currentRows ++
        writeChunks w.globalStartTime (w.sampleRate : ℚ) w.globalSampleCount cs
      globalSampleCount := w.globalSampleCount + cs.length }

/-- `CSVWriter.update_filename` (`src/csv_writer.py` lines 173-188): closes
the current file (sealing its rows), increments the file counter and opens a
fresh empty file.  `global_sample_count` is untouched. -/
def CSVWriter.update_filename (w : CSVWriter) : CSVWriter :=
  { w with
    fileCounter := w.fileCounter + 1
    files := w.files ++ [w.currentRows]
    currentRows := [] }

/-- All rows ever written by the writer, sealed files first, in order. -/
def allRows (w : CSVWriter) : List Row :=
  w.files.flatten ++ w.currentRows

/-- Total number of rows written across all files. -/
def totalRows (w : CSVWriter) : Nat :=
  (allRows w).length

/-! ## The collection loop's CSV path — `collection_loop` in `src/main.py`

Lines 984-1027: accumulate `current_data_size`, and on reaching
`target_size` split the incoming batch at a 3-aligned boundary, rotate, and
continue with the remainder.  Python list slices and floor division are
modelled exactly (`pyTake`, `pyDrop`, `Int.fdiv`). -/

/-- Python `l[:n]` (also for negative `n`). -/
def pyTake (l : List α) (n : Int) : List α :=
  if 0 ≤ n then l.take n.toNat else l.take ((l.length : Int) + n).toNat

/-- Python `l[n:]` (also for negative `n`). -/
def pyDrop (l : List α) (n : Int) : List α :=
  if 0 ≤ n then l.drop n.toNat else l.drop ((l.length : Int) + n).toNat

/-- State carried by the CSV branch of `collection_loop`: the writer and the
module-level `current_data_size` counter. -/
structure CSVPathState where
  writer : CSVWriter
  currentDataSize : Nat
deriving DecidableEq

/-- The `while current_data_size >= target_size` rotation loop of
`collection_loop` (`src/main.py` lines 999-1020).  Arguments mirror the
Python locals `(data, data_actual_size, empty_space)`; the fuel bounds the
iteration count (each iteration subtracts `target` from `current_data_size`,
so `current_data_size + 1` iterations always suffice for `target > 0`;
Python does not terminate for `target = 0`).  Returns the writer, the
updated `current_data_size`, and the final `(data, data_actual_size)`. -/
def csvRotateLoop (target : Nat) :
    Nat → CSVWriter → Nat → List ℚ → Nat → Int → CSVWriter × Nat × List ℚ × Nat
  | 0, w, cds, data, dataActual, _ => (w, cds, data, dataActual)
  | fuel + 1, w, cds, data, dataActual, emptySpace =>
      if cds < target then (w, cds, data, dataActual)
      else
        let w2 := (w.add_data_block (pyTake data emptySpace)).update_filename
        let cds2 := cds - target
        if emptySpace < (dataActual : Int) then
          let data2 := pyDrop data emptySpace
          let dataActual2 := data2.length
          let emptySpace2 := (target : Int).fdiv 3 * 3
          csvRotateLoop target fuel w2 cds2 data2 dataActual2 emptySpace2
        else
          (w2, cds2, data, dataActual)

/-- One incoming batch through the CSV branch of `collection_loop`
(`src/main.py` lines 986-1027, `channels = 3`; the SQL `create_table` call
between rotations is an external side effect and carries no data).  If the
accumulated size stays below `target_size` the batch is written whole;
otherwise the rotation loop runs, and afterwards the leftover
`data_actual_size` is written (`pending` handling, lines 1022-1027). -/
def csvStep (target : Nat) (st : CSVPathState) (data : List ℚ) : CSVPathState :=
  let dataSize := data.length
  let cds := st.currentDataSize + dataSize
  if cds < target then
    ⟨st.writer.add_data_block data, cds⟩
  else
    let dataActual := dataSize
    let emptySpace := ((target : Int) - ((cds : Int) - (dataActual : Int))).fdiv 3 * 3
    let r := csvRotateLoop target (cds + 1) st.writer cds data dataActual emptySpace
    let pending := r.2.2.2
    if pending ≠ 0 then ⟨r.1.add_data_block r.2.2.1, pending⟩
    else ⟨r.1, 0⟩

/-! ## The acquisition read loop — `ProWaveDAQ._read_loop`

`src/prowavedaq.py` lines 448-526.  One loop iteration is modelled as a
transition on the driver state; the outcomes of the external transport are
supplied in a `LoopEvent` (connection check, buffer-status value, read
result, and whether the iteration body raises). A failed or length-mismatched
register read surfaces as an empty payload, exactly as
`_read_registers_with_header` returns `([], 0)`. -/

/-- The mutable driver state used by `_read_loop`: `reading`,
`buffer_count`, the hand-off `data_queue`, the success `counter`, plus the
loop-local `consecutive_errors` and whether the loop has exited (`break`). -/
structure DAQState where
  reading : Bool
  bufferCount : Nat
  dataQueue : List (List ℚ)
  counter : Nat
  consecutiveErrors : Nat
  stopped : Bool
deriving DecidableEq

/-- External outcomes consumed by one iteration of `_read_loop`. -/
structure LoopEvent where
  connectOk : Bool
  raiseExn : Bool
  statusValue : Nat
  payload : List Nat
  remaining : Nat
deriving DecidableEq

/-- `max_consecutive_errors` in `_read_loop`. -/
def MAX_CONSECUTIVE_ERRORS : Nat := 5

/-- One iteration of `_read_loop` (`src/prowavedaq.py` lines 458-523).
Branches, in source order: exited loop / `reading` cleared → no-op;
`_ensure_connected` failure → error count up (stop at 5), buffer count kept;
exception in the body → error count up (stop at 5, else reset buffer count);
buffer status still zero → sleep and retry; aligned non-empty payload →
convert, enqueue with the drop-oldest policy, adopt the header's remaining
count, reset the error count, bump the counter; non-aligned payload →
discard and reset buffer count; empty payload (failed read) → reset buffer
count, error count up (stop at 5). -/
def readLoopStep (s : DAQState) (e : LoopEvent) : DAQState :=
  if s.stopped = true ∨ s.reading = false then s
  else if e.connectOk = false then
    let errs := s.consecutiveErrors + 1
    if MAX_CONSECUTIVE_ERRORS ≤ errs then { s with consecutiveErrors := errs, stopped := true }
    else { s with consecutiveErrors := errs }
  else if e.raiseExn = true then
    let errs := s.consecutiveErrors + 1
    if MAX_CONSECUTIVE_ERRORS ≤ errs then { s with consecutiveErrors := errs, stopped := true }
    else { s with consecutiveErrors := errs, bufferCount := 0 }
  else
    let bc := if s.bufferCount = 0 then e.statusValue else s.bufferCount
    if bc = 0 then { s with bufferCount := 0 }
    else if e.payload ≠ [] ∧ e.payload.length % CHANNEL_COUNT = 0 then
      let samples := convert_raw_to_float_samples e.payload
      if samples = [] then { s with bufferCount := 0 }
      else
        { s with
          dataQueue := putNowaitDropOldest DATA_QUEUE_MAXSIZE s.dataQueue samples
          bufferCount := e.remaining
          consecutiveErrors := 0
          counter := s.counter + 1 }
    else if e.payload ≠ [] then
      { s with bufferCount := 0 }
    else
      let errs := s.consecutiveErrors + 1
      if MAX_CONSECUTIVE_ERRORS ≤ errs then
        { s with bufferCount := 0, consecutiveErrors := errs, stopped := true }
      else { s with bufferCount := 0, consecutiveErrors := errs }

/-- Driver state right after `start_reading` (`src/prowavedaq.py`
lines 148-168): counters cleared, reading. -/
def initReadState : DAQState :=
  ⟨true, 0, [], 0, 0, false⟩

/-- Run the read loop over a sequence of external outcomes. -/
def runReadLoop (s : DAQState) (evs : List LoopEvent) : DAQState :=
  evs.foldl readLoopStep s

/-! ## The SQL upload staging path — `src/main.py`

`_write_to_temp_file` (lines 813-860), `_upload_temp_file_if_needed`
(lines 863-940) and the SQL branch of `collection_loop` (lines 1028-1079).
The temp CSV file's data rows are kept as `stagedRows`; rows successfully
sent to the server are accumulated in `uploadedRows`; `currentDataSize` and
`sampleCount` mirror the module globals `sql_current_data_size` and
`sql_sample_count`. -/

/-- Staging state of the upload path. -/
structure SQLStaging where
  stagedRows : List Row
  uploadedRows : List Row
  currentDataSize : Nat
  sampleCount : Nat
deriving DecidableEq

/-- `_write_to_temp_file`: appends one timestamped row per group of 3 values
(timestamps from `sql_start_time` and the running `sql_sample_count`, same
computation as the CSV writer's) and returns the advanced sample count.
`sql_current_data_size` is updated by the caller, not here. -/
def write_to_temp_file (rate : ℚ) (startTime : ℚ) (st : SQLStaging) (data : List ℚ) :
    SQLStaging :=
  { st with
    stagedRows := st.stagedRows ++ writeChunks startTime rate st.sampleCount (chunks 3 data)
    sampleCount := st.sampleCount + (chunks 3 data).length }

/-- `_upload_temp_file_if_needed` (`src/main.py` lines 863-940), with the
server's answer supplied as `uploadOk`.  Below the `sql_target_size`
threshold: no attempt, returns `False`.  On a successful upload: the whole
temp file is sent (`upload_from_csv_file` reads every row) and deleted, a
fresh empty temp file is created, and `sql_current_data_size` is set to the
excess over the threshold.  On a failed upload: returns `False` with the
file and the counter untouched. -/
def uploadTempFileIfNeeded (target : Nat) (st : SQLStaging) (uploadOk : Bool) :
    Bool × SQLStaging :=
  if st.currentDataSize < target then (false, st)
  else if uploadOk then
    (true,
      { st with
        stagedRows := []
        uploadedRows := st.uploadedRows ++ st.stagedRows
        currentDataSize := st.currentDataSize - target })
  else (false, st)

/-- One call to `_upload_temp_file_if_needed`, consuming the next entry of
the oracle of server outcomes (an exhausted oracle behaves as a failing
server). -/
def uploadCall (target : Nat) (st : SQLStaging) (oracle : List Bool) :
    Bool × SQLStaging × List Bool :=
  let r := uploadTempFileIfNeeded target st (oracle.headD false)
  (r.1, r.2, oracle.tail)

/-- The `while len(remaining_data) > 0` loop of the SQL branch of
`collection_loop` (`src/main.py` lines 1040-1079).  Per iteration: if no
space is left (`remaining_space <= 0`), attempt an upload — on failure write
everything to the current file and break; then write
`min(len(remaining), remaining_space)` rounded down to a multiple of 3; if
that is positive, write it, and if the file is now full attempt an upload
(break on failure); if it is zero, attempt an upload — on failure write
everything and break.  Fuel bounds the iterations (each one consumes
payload or an oracle entry). -/
def sqlWriteLoop (target : Nat) (rate t0 : ℚ) :
    Nat → SQLStaging → List ℚ → List Bool → SQLStaging
  | 0, st, _, _ => st
  | fuel + 1, st, remaining, oracle =>
      if remaining = [] then st
      else
        let preFlush : Option (SQLStaging × List Bool) :=
          if (target : Int) - (st.currentDataSize : Int) ≤ 0 then
            let c := uploadCall target st oracle
            if c.1 then some (c.2.1, c.2.2)
            else none
          else some (st, oracle)
        match preFlush with
        | none =>
            -- upload failed with a full file (the failed call left the
            -- staging untouched): park everything in the current file, break
            let st2 := write_to_temp_file rate t0 st remaining
            { st2 with currentDataSize := st2.currentDataSize + remaining.length }
        | some (st1, or1) =>
            let space : Int := (target : Int) - (st1.currentDataSize : Int)
            let writeSize : Int := (min (remaining.length : Int) space).fdiv 3 * 3
            if 0 < writeSize then
              let dataToWrite := remaining.take writeSize.toNat
              let st2a := write_to_temp_file rate t0 st1 dataToWrite
              let st2 := { st2a with currentDataSize := st1.currentDataSize + writeSize.toNat }
              let remaining2 := remaining.drop writeSize.toNat
              if target ≤ st2.currentDataSize then
                let c2 := uploadCall target st2 or1
                if c2.1 then sqlWriteLoop target rate t0 fuel c2.2.1 remaining2 c2.2.2
                else c2.2.1
              else sqlWriteLoop target rate t0 fuel st2 remaining2 or1
            else
              let c2 := uploadCall target st1 or1
              if c2.1 then sqlWriteLoop target rate t0 fuel c2.2.1 remaining c2.2.2
              else
                let st3 := write_to_temp_file rate t0 c2.2.1 remaining
                { st3 with currentDataSize := st3.currentDataSize + remaining.length }

/-- The SQL branch of `collection_loop` for one incoming batch. -/
def sqlStep (target : Nat) (rate t0 : ℚ) (st : SQLStaging) (data : List ℚ)
    (oracle : List Bool) : SQLStaging :=
  sqlWriteLoop target rate t0 (data.length + oracle.length + 1) st data oracle

/-! ## The stop flow — `ProWaveDAQ.stop_reading` and `stop_collection`

`src/prowavedaq.py` lines 170-191 and `src/main.py` lines 538-655. -/

/-- The parts of the `ProWaveDAQ` object state touched by `stop_reading`. -/
structure DAQHandle where
  reading : Bool
  counter : Nat
  remainingData : List Nat
  dataQueue : List (List ℚ)
deriving DecidableEq

/-- `ProWaveDAQ.stop_reading` (`src/prowavedaq.py` lines 170-191): clears the
reading flag (joining the reader thread), resets the counter, discards any
leftover raw words (`remaining_data`), and drains the hand-off queue
discarding every queued batch. -/
def DAQHandle.stop_reading (_ : DAQHandle) : DAQHandle :=
  ⟨false, 0, [], []⟩

/-- The background work `stop_collection` schedules instead of performing
inline (`finalize_upload`, `src/main.py` lines 577-646). -/
inductive BackgroundTask
  | finalizeUpload
deriving DecidableEq

/-- Application state touched by the stop flow. -/
structure AppState where
  isCollecting : Bool
  daq : DAQHandle
  staging : SQLStaging
  finalFlushDone : Bool
deriving DecidableEq

/-- What `stop_collection` hands back to the HTTP caller: the response, the
state at the moment of the return, and the work left to a background
thread. -/
structure StopResponse where
  success : Bool
  state : AppState
  background : List BackgroundTask
deriving DecidableEq

/-- `stop_collection` (`src/main.py` lines 538-655): refuses when not
collecting; otherwise clears `is_collecting`, calls
`daq_instance.stop_reading()`, starts `finalize_upload` on a daemon thread,
and returns at once — the staged SQL data is untouched and the final flush
has not run at the moment the response is returned. -/
def stop_collection (st : AppState) : StopResponse :=
  if st.isCollecting = false then ⟨false, st, []⟩
  else
    ⟨true,
      { st with isCollecting := false, daq := st.daq.stop_reading },
      [BackgroundTask.finalizeUpload]⟩

/-- The background `finalize_upload` task (`src/main.py` lines 577-646),
with the server outcome supplied as `uploadOk`: uploads the staged temp file
unconditionally — no threshold comparison — deleting it on success (and
`upload_from_csv_file` first creates the target table when none is bound);
on failure the file is left in place. Either way the flush obligation has
been attempted once this runs. -/
def finalize_upload (uploadOk : Bool) (st : AppState) : AppState :=
  if uploadOk then
    { st with
      staging :=
        { st.staging with
          stagedRows := []
          uploadedRows := st.staging.uploadedRows ++ st.staging.stagedRows }
      finalFlushDone := true }
  else { st with finalFlushDone := true }

/-! ## Table-name sanitisation — `SQLUploader._sanitize_table_name`

`src/sql_uploader.py` lines 114-140, and the SQL statements built from the
sanitised name in `create_table` (lines 186-199) and `upload_from_csv_file`
(lines 451-454).  Strings are modelled as character lists. -/

/-- Characters kept by the regex class `[a-zA-Z0-9_]`. -/
def isAllowedTableChar (c : Char) : Bool :=
  ('a' ≤ c && c ≤ 'z') || ('A' ≤ c && c ≤ 'Z') || ('0' ≤ c && c ≤ '9') || c = '_'

/-- The two checks `_sanitize_table_name` applies after the regex
substitution: prefix `t_` when the first character is a digit
(`sanitized[0].isdigit()`), and fall back to `vibration_data` when the
result is empty. -/
def sanitize_finish (substituted : List Char) : List Char :=
  let prefixed :=
    match substituted with
    | [] => ([] : List Char)
    | c :: cs => if c.isDigit then 't' :: '_' :: c :: cs else c :: cs
  if prefixed = [] then "vibration_data".toList else prefixed

/-- `SQLUploader._sanitize_table_name`: every character outside
`[a-zA-Z0-9_]` becomes an underscore (`re.sub`), then the digit-prefix and
empty-name checks run. -/
def sanitize_table_name (tableName : List Char) : List Char :=
  sanitize_finish (tableName.map (fun c => if isAllowedTableChar c then c else '_'))

/-- The `CREATE TABLE` statement built by `SQLUploader.create_table` from a
caller-supplied name: the interpolated identifier is always the sanitised
name. -/
def create_table_sql (tableName : List Char) : List Char :=
  "CREATE TABLE IF NOT EXISTS `".toList ++ sanitize_table_name tableName ++
    "` (id BIGINT AUTO_INCREMENT PRIMARY KEY, timestamp DATETIME NOT NULL, label VARCHAR(255) NOT NULL, channel_1 DOUBLE NOT NULL, channel_2 DOUBLE NOT NULL, channel_3 DOUBLE NOT NULL, INDEX idx_timestamp (timestamp), INDEX idx_label (label)) ENGINE=InnoDB DEFAULT CHARSET=utf8mb4;".toList

/-- The `INSERT` statement built by `SQLUploader.upload_from_csv_file` from
a caller-supplied name: again only the sanitised name is interpolated. -/
def insert_sql (tableName : List Char) : List Char :=
  "INSERT INTO `".toList ++ sanitize_table_name tableName ++
    "` (timestamp, label, channel_1, channel_2, channel_3) VALUES (%s, %s, %s, %s, %s)".toList

/-! ## Helper lemmas -/

theorem convert_eq_take_map (raw : List Nat) :
    convert_raw_to_float_samples raw =
      (raw.take ((raw.length / 3) * 3)).map toPhysical := by
  unfold convert_raw_to_float_samples CHANNEL_COUNT
  by_cases h : raw = []
  · simp [h]
  · simp only [h, if_false]
    by_cases h2 : (raw.length / 3) * 3 = 0
    · simp [h2]
    · simp [h2]

theorem convert_length (raw : List Nat) :
    (convert_raw_to_float_samples raw).length = (raw.length / 3) * 3 := by
  rw [convert_eq_take_map]
  have h := Nat.div_mul_le_self raw.length 3
  simp [List.length_take]
  omega

theorem convert_ne_nil (raw : List Nat) (h1 : raw ≠ [])
    (h2 : raw.length % 3 = 0) : convert_raw_to_float_samples raw ≠ [] := by
  have hl : 0 < raw.length := List.length_pos.mpr h1
  have hc : (raw.length / 3) * 3 = raw.length :=
    Nat.div_mul_cancel (Nat.dvd_of_mod_eq_zero h2)
  intro hcon
  have := convert_length raw
  rw [hcon] at this
  simp at this
  omega

/-! ## C5 — poll mode selection -/

/-- C5: For every pendingCount > 0, a single poll iteration selects Normal
mode when pendingCount ≤ 123 and issues a read of min(pendingCount, 123) + 1
registers at the primary data address 0x02, and selects Bulk mode when
pendingCount > 123 and issues a read of min(pendingCount, 9) + 1 registers
at the bulk address 0x15. -/
theorem C5_poll_mode_selection (n : Nat) (_hn : 0 < n) :
    (n ≤ 123 → pollRequest n = ⟨ReadMode.normal, 0x02, min n 123 + 1⟩) ∧
    (123 < n → pollRequest n = ⟨ReadMode.bulk, 0x15, min n 9 + 1⟩) := by
  constructor
  · intro h
    simp [pollRequest, BULK_TRIGGER_SIZE, REG_FIFO_LEN, h]
  · intro h
    simp [pollRequest, BULK_TRIGGER_SIZE, BULK_MODE_ADDRESS, MAX_BULK_SIZE,
      Nat.not_le.mpr h]

/-- C5 witness: pendingCount = 200 yields a 10-register bulk read at 0x15
and pendingCount = 50 yields a 51-register normal read at 0x02. -/
theorem C5_poll_mode_selection_witness :
    pollRequest 200 = ⟨ReadMode.bulk, 0x15, 10⟩ ∧
    pollRequest 50 = ⟨ReadMode.normal, 0x02, 51⟩ := by
  constructor
  · rw [(C5_poll_mode_selection 200 (by decide)).2 (by decide)]
    decide
  · rw [(C5_poll_mode_selection 50 (by decide)).1 (by decide)]
    decide

/-! ## C6 — the sample codec -/

/-- C6: For every raw payload, the codec converts exactly the first
3·⌊len/3⌋ words and never touches a partial tail: the output is the list of
the converted values in arrival order with length 3·⌊len/3⌋, empty when
fewer than 3 words are supplied, and on an aligned payload it is exactly
the word-by-word image under `toPhysical`
(w ↦ (if w < 32768 then w else w − 65536) / 8192). -/
theorem C6_sample_codec (raw : List Nat) :
    convert_raw_to_float_samples raw =
      (raw.take (3 * (raw.length / 3))).map toPhysical ∧
    (convert_raw_to_float_samples raw).length = 3 * (raw.length / 3) ∧
    (raw.length < 3 → convert_raw_to_float_samples raw = []) ∧
    (raw.length % 3 = 0 →
      convert_raw_to_float_samples raw = raw.map toPhysical) := by
  refine ⟨?_, ?_, ?_, ?_⟩
  · rw [convert_eq_take_map, Nat.mul_comm]
  · rw [convert_length, Nat.mul_comm]
  · intro h
    rw [convert_eq_take_map]
    have : raw.length / 3 = 0 := Nat.div_eq_of_lt h
    simp [this]
  · intro h
    rw [convert_eq_take_map, Nat.div_mul_cancel (Nat.dvd_of_mod_eq_zero h)]
    simp

/-- C6 witness: a concrete aligned payload is converted word-for-word,
including the negative-value wrap (32768 ↦ −4, 49152 ↦ −2). -/
theorem C6_sample_codec_witness :
    convert_raw_to_float_samples [0, 32768, 49152] = [0, -4, -2] := by
  rw [(C6_sample_codec [0, 32768, 49152]).2.2.2 (by decide)]
  norm_num [toPhysical]

/-! ## C10 — table-name sanitisation -/

theorem sanitize_map_all_allowed (l : List Char) :
    (l.map (fun c => if isAllowedTableChar c then c else '_')).all
      isAllowedTableChar = true := by
  induction l with
  | nil => rfl
  | cons c t ih =>
    simp only [List.map_cons, List.all_cons, Bool.and_eq_true]
    refine ⟨?_, by simpa using ih⟩
    by_cases hc : isAllowedTableChar c = true
    · rw [if_pos hc]; exact hc
    · rw [if_neg hc]; decide

theorem sanitize_finish_props (m : List Char)
    (hall : m.all isAllowedTableChar = true) :
    sanitize_finish m ≠ [] ∧
    (sanitize_finish m).all isAllowedTableChar = true ∧
    ((sanitize_finish m).headD 'a').isDigit = false := by
  cases m with
  | nil => decide
  | cons c cs =>
    simp only [List.all_cons, Bool.and_eq_true] at hall
    dsimp only [sanitize_finish]
    by_cases hd : c.isDigit = true
    · rw [if_pos hd, if_neg (List.cons_ne_nil _ _)]
      refine ⟨List.cons_ne_nil _ _, ?_, by rw [List.headD_cons]; decide⟩
      simp only [List.all_cons, Bool.and_eq_true]
      exact ⟨by decide, by decide, hall.1, hall.2⟩
    · rw [if_neg hd, if_neg (List.cons_ne_nil _ _)]
      refine ⟨List.cons_ne_nil _ _, ?_, ?_⟩
      · simp only [List.all_cons, Bool.and_eq_true]
        exact ⟨hall.1, hall.2⟩
      · simpa using hd

/-- C10: For every input string, `_sanitize_table_name` returns a non-empty
string of ASCII letters, digits and underscores whose first character is
not a digit (digit-leading results get a `t_` prefix, empty input becomes
`vibration_data`), and the CREATE TABLE and INSERT statements interpolate
exactly this sanitised name. -/
theorem C10_sanitized_table_name (s : List Char) :
    sanitize_table_name s ≠ [] ∧
    (sanitize_table_name s).all isAllowedTableChar = true ∧
    ((sanitize_table_name s).headD 'a').isDigit = false ∧
    create_table_sql s =
      "CREATE TABLE IF NOT EXISTS `".toList ++ sanitize_table_name s ++
        "` (id BIGINT AUTO_INCREMENT PRIMARY KEY, timestamp DATETIME NOT NULL, label VARCHAR(255) NOT NULL, channel_1 DOUBLE NOT NULL, channel_2 DOUBLE NOT NULL, channel_3 DOUBLE NOT NULL, INDEX idx_timestamp (timestamp), INDEX idx_label (label)) ENGINE=InnoDB DEFAULT CHARSET=utf8mb4;".toList ∧
    insert_sql s =
      "INSERT INTO `".toList ++ sanitize_table_name s ++
        "` (timestamp, label, channel_1, channel_2, channel_3) VALUES (%s, %s, %s, %s, %s)".toList := by
  have h := sanitize_finish_props
    (s.map (fun c => if isAllowedTableChar c then c else '_'))
    (sanitize_map_all_allowed s)
  exact ⟨h.1, h.2.1, h.2.2, rfl, rfl⟩

/-! ## C1 — conservation of samples through the CSV rotation path -/

/-- C1: Evaluation of the CSV rotation path at the failing input.  With a
fresh writer, rotation threshold 6 raw values and one incoming batch of
exactly 6 raw values, the code writes the two samples into the sealed file,
rotates, and then — because the `else: break` arm of the rotation loop
leaves `data_actual_size` untrimmed — writes the same two samples again
into the new file: 4 rows are produced from 2 input samples, contradicting
the claim that the total number of rows equals the total number of input
samples; `current_data_size` is also left at 6 instead of 0. -/
theorem C1_exact_fill_duplicates_samples :
    (csvStep 6 ⟨mkCSVWriter 3 1 0, 0⟩ [1, 2, 3, 4, 5, 6]).writer.files.map
        (fun f => f.map Prod.snd) = [[[1, 2, 3], [4, 5, 6]]] ∧
    (csvStep 6 ⟨mkCSVWriter 3 1 0, 0⟩ [1, 2, 3, 4, 5, 6]).writer.currentRows.map
        Prod.snd = [[1, 2, 3], [4, 5, 6]] ∧
    totalRows (csvStep 6 ⟨mkCSVWriter 3 1 0, 0⟩ [1, 2, 3, 4, 5, 6]).writer = 4 ∧
    (csvStep 6 ⟨mkCSVWriter 3 1 0, 0⟩ [1, 2, 3, 4, 5, 6]).currentDataSize = 6 ∧
    ¬ totalRows (csvStep 6 ⟨mkCSVWriter 3 1 0, 0⟩ [1, 2, 3, 4, 5, 6]).writer = 2 := by
  decide

/-! ## C2 — the upload staging buffer across flushes -/

/-- C2 counterexample: a reachable staging state with 9 raw values staged
against a threshold of 6 (reached by filling the file to the threshold,
having the flush fail, and parking the next 3-value batch in the same
file).  A successful flush then removes ALL 3 staged rows — not just the
6-value prefix — so the 3 excess raw values are not retained in staging
(only the size counter keeps them: it becomes 3 while the new staging file
is empty), contradicting the claim that exactly the flushed prefix is
removed and the excess is retained. -/
theorem C2_counterexample_excess_not_retained :
    (sqlStep 6 1 0 (sqlStep 6 1 0 ⟨[], [], 0, 0⟩ [1, 1, 1, 1, 1, 1] [false])
        [2, 2, 2] [false]).currentDataSize = 9 ∧
    (sqlStep 6 1 0 (sqlStep 6 1 0 ⟨[], [], 0, 0⟩ [1, 1, 1, 1, 1, 1] [false])
        [2, 2, 2] [false]).stagedRows.length = 3 ∧
    (uploadTempFileIfNeeded 6
        (sqlStep 6 1 0 (sqlStep 6 1 0 ⟨[], [], 0, 0⟩ [1, 1, 1, 1, 1, 1] [false])
          [2, 2, 2] [false]) true).1 = true ∧
    (uploadTempFileIfNeeded 6
        (sqlStep 6 1 0 (sqlStep 6 1 0 ⟨[], [], 0, 0⟩ [1, 1, 1, 1, 1, 1] [false])
          [2, 2, 2] [false]) true).2.stagedRows.length = 0 ∧
    ¬ 3 * (uploadTempFileIfNeeded 6
        (sqlStep 6 1 0 (sqlStep 6 1 0 ⟨[], [], 0, 0⟩ [1, 1, 1, 1, 1, 1] [false])
          [2, 2, 2] [false]) true).2.stagedRows.length = 9 - 6 := by
  decide

/-- C2 (amended): a failed flush — including the below-threshold refusal —
leaves the staging state exactly unchanged, so the staged length is
non-decreasing until a flush succeeds; a flush succeeds exactly when the
server accepts and the threshold is met, and then the ENTIRE staged
contents is uploaded and removed (nothing is lost: it all lands in the
uploaded rows) while only the size counter retains the excess,
becoming `size − sql_target_size`. -/
theorem C2_flush_failure_preserves_staging (target : Nat) (st : SQLStaging)
    (ok : Bool) :
    ((uploadTempFileIfNeeded target st ok).1 = false →
       (uploadTempFileIfNeeded target st ok).2 = st) ∧
    ((uploadTempFileIfNeeded target st ok).1 = true ↔
       ok = true ∧ target ≤ st.currentDataSize) ∧
    ((uploadTempFileIfNeeded target st ok).1 = true →
       (uploadTempFileIfNeeded target st ok).2.stagedRows = [] ∧
       (uploadTempFileIfNeeded target st ok).2.uploadedRows =
         st.uploadedRows ++ st.stagedRows ∧
       (uploadTempFileIfNeeded target st ok).2.currentDataSize =
         st.currentDataSize - target ∧
       (uploadTempFileIfNeeded target st ok).2.sampleCount = st.sampleCount) := by
  unfold uploadTempFileIfNeeded
  split_ifs with h1 h2 <;> simp_all

/-- C2 witness: at a concrete below-threshold state a failing flush leaves
the staging untouched, and at a concrete at-threshold state a successful
flush empties the staged rows. -/
theorem C2_flush_failure_preserves_staging_witness :
    (uploadTempFileIfNeeded 6 ⟨[(0, [1, 1, 1])], [], 3, 1⟩ false).2 =
      ⟨[(0, [1, 1, 1])], [], 3, 1⟩ ∧
    (uploadTempFileIfNeeded 6 ⟨[(0, [1, 1, 1]), (1, [2, 2, 2])], [], 6, 2⟩
        true).2.stagedRows = [] := by
  constructor
  · exact (C2_flush_failure_preserves_staging 6 ⟨[(0, [1, 1, 1])], [], 3, 1⟩
      false).1 (by decide)
  · exact ((C2_flush_failure_preserves_staging 6
      ⟨[(0, [1, 1, 1]), (1, [2, 2, 2])], [], 6, 2⟩ true).2.2 (by decide)).1

/-! ## C3 — the hand-off queue admission policy -/

/-- C3 counterexample: the single `data_queue` that feeds the persistence
consumer uses the drop-oldest-on-full policy.  On a full queue (10000
batches) the enqueue of a new batch discards the oldest previously
enqueued batch. -/
theorem C3_counterexample_full_queue_drops_oldest :
    ([0] :: List.replicate 9999 [1] : List (List ℚ)).length =
      DATA_QUEUE_MAXSIZE ∧
    ([(0 : ℚ)] ∈ ([0] :: List.replicate 9999 [1] : List (List ℚ))) ∧
    [(0 : ℚ)] ∉ putNowaitDropOldest DATA_QUEUE_MAXSIZE
        ([0] :: List.replicate 9999 [1] : List (List ℚ)) [2] := by
  have hlen : ([0] :: List.replicate 9999 [1] : List (List ℚ)).length = 10000 := by
    rw [List.length_cons, List.length_replicate]
  refine ⟨by rw [hlen, DATA_QUEUE_MAXSIZE], List.mem_cons_self _ _, ?_⟩
  have hq : putNowaitDropOldest DATA_QUEUE_MAXSIZE
      ([0] :: List.replicate 9999 [1] : List (List ℚ)) [2] =
      List.replicate 9999 [(1 : ℚ)] ++ [[2]] := by
    unfold putNowaitDropOldest DATA_QUEUE_MAXSIZE
    rw [hlen, if_neg (Nat.lt_irrefl 10000), List.drop_one, List.tail_cons]
  rw [hq]
  intro hmem
  rcases List.mem_append.mp hmem with h | h
  · have h2 := List.eq_of_mem_replicate h
    norm_num at h2
  · rw [List.mem_singleton] at h
    norm_num at h

/-- C3 (amended): the read loop hands every decoded batch to ONE shared
bounded queue (capacity 10000) that feeds the display and the persistence
consumers alike; the enqueue appends in FIFO order while there is room,
and on a full queue it drops the oldest queued batch to admit the newest —
also on the persistence path. -/
theorem C3_shared_queue_drop_oldest_policy (q : List (List ℚ)) (x : List ℚ) :
    (q.length < DATA_QUEUE_MAXSIZE →
       putNowaitDropOldest DATA_QUEUE_MAXSIZE q x = q ++ [x]) ∧
    (DATA_QUEUE_MAXSIZE ≤ q.length →
       putNowaitDropOldest DATA_QUEUE_MAXSIZE q x = q.drop 1 ++ [x]) ∧
    (∀ (s : DAQState) (e : LoopEvent),
       s.stopped = false → s.reading = true → e.connectOk = true →
       e.raiseExn = false →
       (if s.bufferCount = 0 then e.statusValue else s.bufferCount) ≠ 0 →
       e.payload ≠ [] → e.payload.length % CHANNEL_COUNT = 0 →
       (readLoopStep s e).dataQueue =
         putNowaitDropOldest DATA_QUEUE_MAXSIZE s.dataQueue
           (convert_raw_to_float_samples e.payload)) := by
  refine ⟨?_, ?_, ?_⟩
  · intro h
    unfold putNowaitDropOldest
    rw [if_pos h]
  · intro h
    unfold putNowaitDropOldest
    rw [if_neg (Nat.not_lt.mpr h)]
  · intro s e h1 h2 h3 h4 h5 h6 h7
    have hs : convert_raw_to_float_samples e.payload ≠ [] :=
      convert_ne_nil e.payload h6 (by simpa [CHANNEL_COUNT] using h7)
    simp only [readLoopStep, h1, h2, h3, h4]
    rw [if_neg (by simp)]
    rw [if_neg (by simp)]
    rw [if_neg (by simp)]
    rw [if_neg h5, if_pos ⟨h6, h7⟩, if_neg hs]

/-- C3 witness: enqueueing onto a non-full queue appends in FIFO order. -/
theorem C3_shared_queue_drop_oldest_policy_witness :
    putNowaitDropOldest DATA_QUEUE_MAXSIZE ([[1]] : List (List ℚ)) [2] =
      [[1], [2]] := by
  exact (C3_shared_queue_drop_oldest_policy [[(1 : ℚ)]] [2]).1
    (by simp [DATA_QUEUE_MAXSIZE])

/-! ## C4 — the stop flow -/

/-- C4 counterexample: a concrete collecting state with one in-flight batch
in the hand-off queue and one staged row.  `stop_collection` returns a
success response while the final flush has not run (it is merely scheduled
on a background thread), the queued batch has been discarded by
`stop_reading` rather than appended to the staging buffer, and the staging
is unchanged — contradicting the claim that stop returns only after the
drain-to-buffer and final flush complete. -/
theorem C4_counterexample_stop_returns_before_flush :
    (stop_collection
        ⟨true, ⟨true, 3, [7], [[1, 2, 3]]⟩, ⟨[(0, [1, 1, 1])], [], 3, 1⟩,
          false⟩).success = true ∧
    (stop_collection
        ⟨true, ⟨true, 3, [7], [[1, 2, 3]]⟩, ⟨[(0, [1, 1, 1])], [], 3, 1⟩,
          false⟩).state.finalFlushDone = false ∧
    (stop_collection
        ⟨true, ⟨true, 3, [7], [[1, 2, 3]]⟩, ⟨[(0, [1, 1, 1])], [], 3, 1⟩,
          false⟩).state.daq.dataQueue = [] ∧
    (stop_collection
        ⟨true, ⟨true, 3, [7], [[1, 2, 3]]⟩, ⟨[(0, [1, 1, 1])], [], 3, 1⟩,
          false⟩).state.staging.stagedRows = [(0, [1, 1, 1])] ∧
    (stop_collection
        ⟨true, ⟨true, 3, [7], [[1, 2, 3]]⟩, ⟨[(0, [1, 1, 1])], [], 3, 1⟩,
          false⟩).background = [BackgroundTask.finalizeUpload] := by
  decide

/-- C4 (amended): when collecting, `stop_collection` stops the read loop
and discards the in-flight queued batches and leftover raw words instead
of appending them to the staging buffer, leaves the staged SQL data
untouched, schedules the one unconditional final flush on a background
thread, and returns before that flush has run; the background
`finalize_upload` then attempts the flush regardless of any threshold,
emptying the staged rows into the uploaded rows on success. -/
theorem C4_stop_discards_and_defers_flush (st : AppState)
    (h : st.isCollecting = true) :
    (stop_collection st).success = true ∧
    (stop_collection st).state.isCollecting = false ∧
    (stop_collection st).state.daq.reading = false ∧
    (stop_collection st).state.daq.dataQueue = [] ∧
    (stop_collection st).state.daq.remainingData = [] ∧
    (stop_collection st).state.staging = st.staging ∧
    (stop_collection st).state.finalFlushDone = st.finalFlushDone ∧
    (stop_collection st).background = [BackgroundTask.finalizeUpload] ∧
    (∀ ok, (finalize_upload ok (stop_collection st).state).finalFlushDone =
      true) ∧
    (finalize_upload true (stop_collection st).state).staging.stagedRows =
      [] ∧
    (finalize_upload true (stop_collection st).state).staging.uploadedRows =
      st.staging.uploadedRows ++ st.staging.stagedRows ∧
    (finalize_upload false (stop_collection st).state).staging = st.staging := by
  unfold stop_collection
  rw [if_neg (by simp [h])]
  unfold DAQHandle.stop_reading finalize_upload
  refine ⟨rfl, rfl, rfl, rfl, rfl, rfl, rfl, rfl, ?_, ?_, ?_, ?_⟩
  · intro ok
    cases ok <;> rfl
  · rfl
  · rfl
  · rfl

/-- C4 witness: the amended behaviour at a concrete collecting state. -/
theorem C4_stop_discards_and_defers_flush_witness :
    (stop_collection
        ⟨true, ⟨true, 2, [5], [[9, 9, 9]]⟩, ⟨[(0, [4, 4, 4])], [], 3, 1⟩,
          false⟩).state.staging.stagedRows = [(0, [4, 4, 4])] := by
  have h := C4_stop_discards_and_defers_flush
    ⟨true, ⟨true, 2, [5], [[9, 9, 9]]⟩, ⟨[(0, [4, 4, 4])], [], 3, 1⟩, false⟩
    rfl
  rw [h.2.2.2.2.2.1]

/-! ## C7 — misaligned payloads are discarded -/

/-- C7: In every poll iteration whose payload length is not a multiple of 3,
the driver discards the payload: the hand-off queue receives nothing, the
success counter does not advance, the error counter is untouched, and
`buffer_count` is reset to 0 so the next iteration re-queries the device
buffer status. -/
theorem C7_misaligned_payload_discarded (s : DAQState) (e : LoopEvent)
    (h1 : s.stopped = false) (h2 : s.reading = true) (h3 : e.connectOk = true)
    (h4 : e.raiseExn = false)
    (h5 : (if s.bufferCount = 0 then e.statusValue else s.bufferCount) ≠ 0)
    (h6 : e.payload.length % CHANNEL_COUNT ≠ 0) :
    (readLoopStep s e).dataQueue = s.dataQueue ∧
    (readLoopStep s e).bufferCount = 0 ∧
    (readLoopStep s e).counter = s.counter ∧
    (readLoopStep s e).consecutiveErrors = s.consecutiveErrors := by
  have hp : e.payload ≠ [] := by
    intro hh
    rw [hh] at h6
    simp [CHANNEL_COUNT] at h6
  simp only [readLoopStep, h1, h2, h3, h4]
  rw [if_neg (by simp), if_neg (by simp), if_neg (by simp), if_neg h5,
    if_neg (fun hc => h6 hc.2), if_pos hp]
  exact ⟨rfl, rfl, rfl, rfl⟩

/-- C7 witness: a 2-word payload (not a multiple of 3) leaves the queue
untouched and resets the pending count at a concrete state. -/
theorem C7_misaligned_payload_discarded_witness :
    (readLoopStep ⟨true, 5, [[9]], 2, 1, false⟩
        ⟨true, false, 0, [1, 2], 4⟩).dataQueue = [[9]] ∧
    (readLoopStep ⟨true, 5, [[9]], 2, 1, false⟩
        ⟨true, false, 0, [1, 2], 4⟩).bufferCount = 0 := by
  have h := C7_misaligned_payload_discarded ⟨true, 5, [[9]], 2, 1, false⟩
    ⟨true, false, 0, [1, 2], 4⟩ rfl rfl rfl rfl (by decide) (by decide)
  exact ⟨h.1, h.2.1⟩

/-! ## C9 — consecutive-failure escalation -/

def errorInv (s : DAQState) : Prop :=
  s.consecutiveErrors ≤ MAX_CONSECUTIVE_ERRORS ∧
  (MAX_CONSECUTIVE_ERRORS ≤ s.consecutiveErrors → s.stopped = true)

theorem errorInv_step (s : DAQState) (e : LoopEvent) (hs : errorInv s) :
    errorInv (readLoopStep s e) := by
  obtain ⟨hle, himp⟩ := hs
  by_cases h0 : s.stopped = true ∨ s.reading = false
  · unfold readLoopStep
    rw [if_pos h0]
    exact ⟨hle, himp⟩
  · have hstop : s.stopped = false := by
      cases hb : s.stopped
      · rfl
      · exact absurd (Or.inl hb) h0
    have h4 : s.consecutiveErrors ≤ 4 := by
      by_contra hgt
      have h5 : MAX_CONSECUTIVE_ERRORS ≤ s.consecutiveErrors := by
        unfold MAX_CONSECUTIVE_ERRORS
        omega
      rw [himp h5] at hstop
      cases hstop
    have key : (readLoopStep s e).consecutiveErrors ≤ 5 ∧
        (5 ≤ (readLoopStep s e).consecutiveErrors →
          (readLoopStep s e).stopped = true) := by
      simp only [readLoopStep, MAX_CONSECUTIVE_ERRORS]
      rw [if_neg h0]
      split_ifs <;> refine ⟨?_, fun hx => ?_⟩ <;> simp_all <;> omega
    exact key

theorem errorInv_run (evs : List LoopEvent) :
    errorInv (runReadLoop initReadState evs) := by
  have hgen : ∀ (l : List LoopEvent) (s : DAQState), errorInv s →
      errorInv (l.foldl readLoopStep s) := by
    intro l
    induction l with
    | nil => intro s hs; exact hs
    | cons e t ih => intro s hs; exact ih _ (errorInv_step s e hs)
  refine hgen evs initReadState ?_
  constructor
  · decide
  · intro h
    exact absurd h (by decide)

/-- C9: Runs of the read loop never accumulate more than 5 consecutive
failures, and reaching 5 stops the loop (a stopped loop ignores every
further event, so a sixth consecutive failing poll never happens); a failed
poll (empty payload from a transport error or a malformed length) resets
`buffer_count` to 0 and advances the consecutive-failure count; a
successful aligned poll resets the consecutive-failure count to zero. -/
theorem C9_failure_escalation :
    (∀ evs : List LoopEvent,
       (runReadLoop initReadState evs).consecutiveErrors ≤
         MAX_CONSECUTIVE_ERRORS ∧
       (MAX_CONSECUTIVE_ERRORS ≤
           (runReadLoop initReadState evs).consecutiveErrors →
          (runReadLoop initReadState evs).stopped = true)) ∧
    (∀ (s : DAQState) (e : LoopEvent), s.stopped = true →
       readLoopStep s e = s) ∧
    (∀ (s : DAQState) (e : LoopEvent),
       s.stopped = false → s.reading = true → e.connectOk = true →
       e.raiseExn = false →
       (if s.bufferCount = 0 then e.statusValue else s.bufferCount) ≠ 0 →
       e.payload = [] →
       (readLoopStep s e).bufferCount = 0 ∧
       (readLoopStep s e).consecutiveErrors = s.consecutiveErrors + 1) ∧
    (∀ (s : DAQState) (e : LoopEvent),
       s.stopped = false → s.reading = true → e.connectOk = true →
       e.raiseExn = false →
       (if s.bufferCount = 0 then e.statusValue else s.bufferCount) ≠ 0 →
       e.payload ≠ [] → e.payload.length % CHANNEL_COUNT = 0 →
       (readLoopStep s e).consecutiveErrors = 0) := by
  refine ⟨errorInv_run, ?_, ?_, ?_⟩
  · intro s e h
    unfold readLoopStep
    rw [if_pos (Or.inl h)]
  · intro s e h1 h2 h3 h4 h5 h6
    simp only [readLoopStep, h1, h2, h3, h4]
    rw [if_neg (by simp), if_neg (by simp), if_neg (by simp), if_neg h5,
      if_neg (fun hc => hc.1 h6), if_neg (by simp [h6])]
    split_ifs <;> exact ⟨rfl, rfl⟩
  · intro s e h1 h2 h3 h4 h5 h6 h7
    have hs : convert_raw_to_float_samples e.payload ≠ [] :=
      convert_ne_nil e.payload h6 (by simpa [CHANNEL_COUNT] using h7)
    simp only [readLoopStep, h1, h2, h3, h4]
    rw [if_neg (by simp), if_neg (by simp), if_neg (by simp), if_neg h5,
      if_pos ⟨h6, h7⟩, if_neg hs]

/-- C9 witness: five consecutive failing polls (empty payloads with a live
connection) stop the read loop. -/
theorem C9_failure_escalation_witness :
    (runReadLoop initReadState
        (List.replicate 5 ⟨true, false, 7, [], 0⟩)).stopped = true := by
  exact (C9_failure_escalation.1
    (List.replicate 5 ⟨true, false, 7, [], 0⟩)).2 (by decide)

/-! ## C8 — timestamp continuity across rotations -/

/-- The operations the collection loop performs on the record writer:
`add_data_block` calls and `update_filename` rotations, in any order. -/
inductive CSVOp
  | addBlock (data : List ℚ)
  | rotate

/-- Apply one writer operation. -/
def applyCSVOp (w : CSVWriter) : CSVOp → CSVWriter
  | CSVOp.addBlock d => w.add_data_block d
  | CSVOp.rotate => w.update_filename

/-- Apply a sequence of writer operations. -/
def applyCSVOps (w : CSVWriter) (ops : List CSVOp) : CSVWriter :=
  ops.foldl applyCSVOp w

theorem writeChunks_length (o r : ℚ) (c : Nat) (l : List (List ℚ)) :
    (writeChunks o r c l).length = l.length := by
  induction l generalizing c with
  | nil => rfl
  | cons a t ih => simp [writeChunks, ih]

theorem writeChunks_getD (o r : ℚ) (l : List (List ℚ)) (c k : Nat)
    (hk : k < l.length) (d : Row) :
    ((writeChunks o r c l).getD k d).1 = o + ((c + k : Nat) : ℚ) * (1 / r) := by
  induction l generalizing c k with
  | nil => simp at hk
  | cons a t ih =>
    cases k with
    | zero => simp [writeChunks]
    | succ k =>
      have hk2 : k < t.length := by simpa using hk
      have := ih (c + 1) k hk2
      simp only [writeChunks, List.getD_cons_succ, this]
      congr 2
      push_cast
      ring

theorem allRows_add_data_block (w : CSVWriter) (d : List ℚ) :
    allRows (w.add_data_block d) = allRows w ++
      writeChunks w.globalStartTime (w.sampleRate : ℚ) w.globalSampleCount
        (chunks w.channels d) := by
  by_cases h : d = []
  · subst h
    simp [CSVWriter.add_data_block, chunks, writeChunks]
    cases hc : decide (w.channels = 0) <;> simp_all [chunksAux, writeChunks]
  · simp [CSVWriter.add_data_block, h, allRows, List.append_assoc]

theorem allRows_update_filename (w : CSVWriter) :
    allRows w.update_filename = allRows w := by
  simp [CSVWriter.update_filename, allRows]

/-- The timestamp invariant of the record writer: the origin and rate are
fixed, the global sample count equals the number of rows ever written, and
the k-th row overall carries timestamp `origin + k * (1 / rate)`. -/
def timestampInv (origin : ℚ) (rate : Nat) (w : CSVWriter) : Prop :=
  w.globalStartTime = origin ∧ w.sampleRate = rate ∧
  w.globalSampleCount = (allRows w).length ∧
  ∀ k, k < (allRows w).length →
    ((allRows w).getD k (0, [])).1 = origin + (k : ℚ) * (1 / (rate : ℚ))

theorem timestampInv_add (origin : ℚ) (rate : Nat) (w : CSVWriter)
    (d : List ℚ) (h : timestampInv origin rate w) :
    timestampInv origin rate (w.add_data_block d) := by
  obtain ⟨ho, hr, hc, hk⟩ := h
  have hrows := allRows_add_data_block w d
  have hcount : (w.add_data_block d).globalSampleCount =
      w.globalSampleCount + (chunks w.channels d).length := by
    by_cases hd : d = []
    · subst hd
      simp [CSVWriter.add_data_block, chunks]
      cases hcz : decide (w.channels = 0) <;> simp_all [chunksAux]
    · simp [CSVWriter.add_data_block, hd]
  have hfix1 : (w.add_data_block d).globalStartTime = w.globalStartTime := by
    by_cases hd : d = [] <;> simp [CSVWriter.add_data_block, hd]
  have hfix2 : (w.add_data_block d).sampleRate = w.sampleRate := by
    by_cases hd : d = [] <;> simp [CSVWriter.add_data_block, hd]
  refine ⟨by rw [hfix1, ho], by rw [hfix2, hr], ?_, ?_⟩
  · rw [hcount, hrows, List.length_append, hc, writeChunks_length]
  · intro k hk2
    rw [hrows] at hk2 ⊢
    rw [List.length_append, writeChunks_length] at hk2
    by_cases hlt : k < (allRows w).length
    · rw [List.getD_append _ _ _ _ hlt]
      exact hk k hlt
    · have hge : (allRows w).length ≤ k := Nat.not_lt.mp hlt
      rw [List.getD_append_right _ _ _ _ hge]
      have hk3 : k - (allRows w).length < (chunks w.channels d).length := by
        omega
      rw [writeChunks_getD _ _ _ _ _ hk3]
      rw [ho, hr, hc]
      have hnk : (allRows w).length + (k - (allRows w).length) = k := by omega
      rw [hnk]

theorem timestampInv_rotate (origin : ℚ) (rate : Nat) (w : CSVWriter)
    (h : timestampInv origin rate w) :
    timestampInv origin rate w.update_filename := by
  obtain ⟨ho, hr, hc, hk⟩ := h
  have hrows := allRows_update_filename w
  exact ⟨ho, hr, by rw [hrows]; exact hc, by rw [hrows]; exact hk⟩

theorem timestampInv_applyOps (origin : ℚ) (rate : Nat) (ops : List CSVOp)
    (w : CSVWriter) (h : timestampInv origin rate w) :
    timestampInv origin rate (applyCSVOps w ops) := by
  induction ops generalizing w with
  | nil => exact h
  | cons op t ih =>
    cases op with
    | addBlock d => exact ih _ (timestampInv_add origin rate w d h)
    | rotate => exact ih _ (timestampInv_rotate origin rate w h)

/-- C8: Across any sequence of `add_data_block` calls and rotations applied
to a fresh writer, the k-th row overall (counting across every sealed file
and the open file, never reset by a rotation) carries timestamp
`origin + k * (1/sampleRate)`; hence consecutive rows are spaced by exactly
`1/sampleRate` seconds and, for a positive sample rate, the timestamps are
strictly increasing — with no gap or reset at any rotation boundary. -/
theorem C8_timestamps_continuous (origin : ℚ) (rate channels : Nat)
    (ops : List CSVOp) (hr : 0 < rate) (k : Nat)
    (hk : k + 1 < (allRows (applyCSVOps (mkCSVWriter channels rate origin) ops)).length) :
    ((allRows (applyCSVOps (mkCSVWriter channels rate origin) ops)).getD k
        (0, [])).1 = origin + (k : ℚ) * (1 / (rate : ℚ)) ∧
    ((allRows (applyCSVOps (mkCSVWriter channels rate origin) ops)).getD (k + 1)
          (0, [])).1 -
      ((allRows (applyCSVOps (mkCSVWriter channels rate origin) ops)).getD k
          (0, [])).1 = 1 / (rate : ℚ) ∧
    ((allRows (applyCSVOps (mkCSVWriter channels rate origin) ops)).getD k
        (0, [])).1 <
      ((allRows (applyCSVOps (mkCSVWriter channels rate origin) ops)).getD (k + 1)
          (0, [])).1 := by
  have hinit : timestampInv origin rate (mkCSVWriter channels rate origin) := by
    refine ⟨rfl, rfl, rfl, ?_⟩
    intro k hk
    simp [mkCSVWriter, allRows] at hk
  have hinv := timestampInv_applyOps origin rate ops _ hinit
  obtain ⟨-, -, -, hts⟩ := hinv
  have h1 := hts k (by omega)
  have h2 := hts (k + 1) hk
  have hpos : 0 < 1 / (rate : ℚ) := by
    have : (0 : ℚ) < (rate : ℚ) := by exact_mod_cast hr
    positivity
  refine ⟨h1, ?_, ?_⟩
  · rw [h1, h2]
    push_cast
    ring
  · rw [h1, h2]
    have : ((k : ℚ) + 1) * (1 / (rate : ℚ)) =
        (k : ℚ) * (1 / (rate : ℚ)) + 1 / (rate : ℚ)  := by ring
    push_cast
    nlinarith [hpos]

/-- C8 witness: with sample rate 2, channels 3, origin 0 and the operation
sequence "write two samples, rotate, write one sample", rows 1 and 2 (the
rotation boundary) are spaced by exactly 1/2 second and strictly
increasing. -/
theorem C8_timestamps_continuous_witness :
    ((allRows (applyCSVOps (mkCSVWriter 3 2 0)
        [CSVOp.addBlock [1, 2, 3, 4, 5, 6], CSVOp.rotate,
          CSVOp.addBlock [7, 8, 9]])).getD 2 (0, [])).1 -
      ((allRows (applyCSVOps (mkCSVWriter 3 2 0)
        [CSVOp.addBlock [1, 2, 3, 4, 5, 6], CSVOp.rotate,
          CSVOp.addBlock [7, 8, 9]])).getD 1 (0, [])).1 = 1 / (2 : ℚ) := by
  exact (C8_timestamps_continuous 0 2 3
    [CSVOp.addBlock [1, 2, 3, 4, 5, 6], CSVOp.rotate, CSVOp.addBlock [7, 8, 9]]
    (by decide) 1 (by decide)).2.1
